import Mathlib

/-!
Verification of the DNSLookup tool (`dnslookup.py`).

The program is a linear chain of WHOIS/DNS lookups with defensive error
handling.  Network effects are modelled by oracles: an inductive type of
possible outcomes of each library call (success value or one of the
exceptions the code catches), so every function of the source becomes a
pure Lean function of the input plus the oracle, and "never raises"
becomes totality of that function.

String primitives mirror Python: `str.strip()` (whitespace both ends),
`str.rstrip('.')` (drop all trailing dots), `str.lower()`.
-/

namespace DNSLookup

/-- Python `str.strip()` on the character list: drop leading and trailing
whitespace. -/
def trimChars (l : List Char) : List Char :=
  ((l.dropWhile Char.isWhitespace).reverse.dropWhile Char.isWhitespace).reverse

/-- Python `str.strip()`. -/
def pyStrip (s : String) : String :=
  ⟨trimChars s.data⟩

/-- Python `str.rstrip('.')`: drop every trailing `'.'` character. -/
def pyRstripDot (s : String) : String :=
  ⟨(s.data.reverse.dropWhile (fun c => c = '.')).reverse⟩

/-- Python `str.lower()` (ASCII case folding suffices here). -/
def pyLower (s : String) : String :=
  ⟨s.data.map Char.toLower⟩

/-- Shape of a Python value as it reaches `get_primary_whois_value`:
WHOIS fields are absent (`None`), a bare string, a list of values, or some
other object (modelled by its `str()` rendering). -/
inductive PyData where
  | none
  | str (s : String)
  | list (l : List PyData)
  | other (repr : String)

/-- Python truthiness for the `PyData` shapes: `None`, `""` and `[]` are
falsy; other objects are assumed truthy. -/
def PyData.truthy : PyData → Bool
  | PyData.none => false
  | PyData.str s => s ≠ ""
  | PyData.list l => !l.isEmpty
  | PyData.other _ => true

/-- Python `a or b`: the first operand when truthy, the second otherwise. -/
def pyOr (a b : PyData) : PyData :=
  if a.truthy then a else b

/-- The list-comprehension filter of line 95
(`isinstance(item, str) and item.strip()`): keep an entry that is an
actual string whose stripped form is non-empty — the entry itself is
kept, untrimmed. -/
def strEntryFilter : PyData → Option String
  | PyData.str s => if pyStrip s ≠ "" then some s else Option.none
  | _ => Option.none

/-- `get_primary_whois_value` (dnslookup.py lines 89-100): primary string
value from a WHOIS field of unknown shape.  Note the list branch returns
the filtered entry itself, not its stripped form. -/
def get_primary_whois_value : PyData → String
  | PyData.none => "Not Found"
  | PyData.list l =>
      let filtered_list := l.filterMap strEntryFilter
      match filtered_list with
      | x :: _ => x
      | [] => "Not Found"
  | PyData.str s => if pyStrip s ≠ "" then pyStrip s else "Not Found"
  | PyData.other r => r

/-- The amended list policy, stated as a first-match scan: the first entry
that is an actual string whose stripped form is non-empty, returned
as-is. -/
def firstStringEntry : List PyData → Option String
  | [] => Option.none
  | PyData.str s :: rest =>
      if pyStrip s ≠ "" then some s else firstStringEntry rest
  | _ :: rest => firstStringEntry rest

/-- The shapes the WHOIS library actually produces for a field: absent, a
bare string, or a list. -/
def PyData.basicShape : PyData → Bool
  | PyData.other _ => false
  | _ => true

-- Basic facts about the string primitives.

theorem dropWhile_head_not {p : Char → Bool} :
    ∀ (l : List Char) (h : Char), (l.dropWhile p).head? = some h → p h = false := by
  intro l
  induction l with
  | nil => intro h hh; simp [List.dropWhile] at hh
  | cons a t ih =>
      intro h hh
      by_cases hp : p a
      · rw [List.dropWhile_cons_of_pos hp] at hh
        exact ih h hh
      · rw [List.dropWhile_cons_of_neg hp] at hh
        simp at hh
        rw [← hh]
        exact Bool.of_not_eq_true hp

theorem trimChars_all_ws {l : List Char} (h : ∀ c ∈ l, c.isWhitespace) :
    trimChars l = [] := by
  unfold trimChars
  have h1 : l.dropWhile Char.isWhitespace = [] := List.dropWhile_eq_nil_iff.mpr h
  simp [h1]

theorem trimChars_ne_nil_exists {l : List Char} (h : trimChars l ≠ []) :
    ∃ c ∈ l, ¬ c.isWhitespace := by
  by_contra hc
  push_neg at hc
  exact h (trimChars_all_ws (by simpa using hc))

theorem trimChars_has_non_ws {l : List Char} (h : trimChars l ≠ []) :
    ∃ c ∈ trimChars l, ¬ c.isWhitespace := by
  unfold trimChars at h ⊢
  cases hm : (l.dropWhile Char.isWhitespace).reverse.dropWhile Char.isWhitespace with
  | nil => rw [hm] at h; exact absurd rfl h
  | cons a t =>
      have ha : Char.isWhitespace a = false := by
        apply dropWhile_head_not ((l.dropWhile Char.isWhitespace).reverse)
        rw [hm]
        rfl
      refine ⟨a, ?_, by simp [ha]⟩
      simp

theorem pyStrip_eq_empty_iff {s : String} :
    pyStrip s = "" ↔ trimChars s.data = [] := by
  constructor
  · intro h
    have h2 := congrArg String.data h
    exact h2
  · intro h
    apply String.ext
    show trimChars s.data = ([] : List Char)
    exact h

theorem pyStrip_ne_empty_iff {s : String} :
    pyStrip s ≠ "" ↔ trimChars s.data ≠ [] :=
  not_congr pyStrip_eq_empty_iff

/-! ## WHOIS client (dnslookup.py lines 11-31)

`whois.whois(domain)` is a network call; its behaviour is an oracle value
of type `WhoisCall`: either it returns a record or it raises one of the
exceptions enumerated by the `except` clauses. -/

/-- A WHOIS record: the `whois` library returns a dict-like object mapping
field names to values of irregular shape. -/
def WhoisRecord := List (String × PyData)

/-- Python `record.get(key)`: the stored value, or `None` when the key is
missing. -/
def WhoisRecord.get (r : WhoisRecord) (k : String) : PyData :=
  match (List.find? (fun kv => kv.1 = k) r) with
  | some kv => kv.2
  | Option.none => PyData.none

/-- The exceptions `get_whois_info` catches, in the order of its `except`
clauses; `other` covers the final `except Exception` clause.  The string
payload is the exception's rendering used in the warning message. -/
inductive WhoisExc where
  | unknownTld
  | commandFailed (e : String)
  | pywhoisError (e : String)
  | socketTimeout
  | other (e : String)

/-- Oracle for one `whois.whois(domain)` call: a returned record or a
raised exception. -/
inductive WhoisCall where
  | ok (r : WhoisRecord)
  | exc (e : WhoisExc)

/-- `get_whois_info` (lines 11-31): result record (`none` on any caught
exception) paired with the warning line it prints (`none` on success).
Totality of this function is the "never raises to the caller" property. -/
def get_whois_info (domain : String) (call : WhoisCall) :
    Option WhoisRecord × Option String :=
  match call with
  | WhoisCall.ok r => (some r, Option.none)
  | WhoisCall.exc WhoisExc.unknownTld =>
      (Option.none, some ("Warning: WHOIS lookup failed for '" ++ domain ++ "'. Unknown TLD."))
  | WhoisCall.exc (WhoisExc.commandFailed e) =>
      (Option.none, some ("Warning: WHOIS command execution failed for '" ++ domain ++ "': " ++ e))
  | WhoisCall.exc (WhoisExc.pywhoisError e) =>
      (Option.none, some ("Warning: WHOIS lookup error for '" ++ domain ++ "': " ++ e))
  | WhoisCall.exc WhoisExc.socketTimeout =>
      (Option.none, some ("Warning: WHOIS lookup for '" ++ domain ++ "' timed out."))
  | WhoisCall.exc (WhoisExc.other e) =>
      (Option.none, some ("Warning: An unexpected error occurred during WHOIS lookup for '" ++ domain ++ "': " ++ e))

/-! ## DNS client (dnslookup.py lines 34-85) -/

/-- The `dns.resolver` exceptions distinguished by `get_dns_records`. -/
inductive DnsExc where
  | nxdomain
  | noAnswer
  | noNameservers
  | timeout
  | other (e : String)

/-- Oracle for the two resolver calls `get_dns_records` can make.
`resolveMain` is `resolver.resolve(domain, record_type,
raise_on_no_answer=False)`: on success its `rrset` is `none` (no answer)
or the list of rendered rdata texts.  `resolveCname` is
`resolver.resolve(domain, 'CNAME')` (only consulted on the NS fallback
path); it raises `noAnswer` when no CNAME exists. -/
structure DnsWorld where
  resolveMain : Except DnsExc (Option (List String))
  resolveCname : Except DnsExc (Option (List String))

/-- Python truthiness of `Optional[str]`: `None` and `""` are falsy. -/
def optStrTruthy : Option String → Bool
  | Option.none => false
  | some s => s ≠ ""

/-- The error message produced by each outer `except` clause
(lines 69-80). -/
def dnsExcMsg (domain record_type : String) : DnsExc → String
  | DnsExc.nxdomain => "Domain '" ++ domain ++ "' does not exist (NXDOMAIN)."
  | DnsExc.noAnswer => "No " ++ record_type ++ " records found for '" ++ domain ++ "'."
  | DnsExc.noNameservers => "Could not contact nameservers for '" ++ domain ++ "'."
  | DnsExc.timeout => "DNS query for " ++ record_type ++ " records of '" ++ domain ++ "' timed out."
  | DnsExc.other e => "An unexpected DNS error occurred for '" ++ domain ++ "' (" ++ record_type ++ "): " ++ e

/-- The plain no-records message (lines 57/59/61). -/
def noRecordsMsg (record_type : String) : String :=
  "No " ++ record_type ++ " records found."

/-- The CNAME fallback message (line 55). -/
def cnameFallbackMsg (record_type target : String) : String :=
  ("No direct " ++ record_type ++ " records found, but found CNAME: ") ++ target

/-- The defensive guard of lines 82-83: it runs only on the paths that
fall through to line 82 (the early `return` at line 62 bypasses it). -/
def guardFinal (record_type : String) (res : List String × Option String) :
    List String × Option String :=
  if res.1.isEmpty && !(optStrTruthy res.2) then
    (res.1, some ("No " ++ record_type ++ " records found (or query failed silently)."))
  else res

/-- `get_dns_records` (lines 34-85).  The `rrset is None` branch returns
early (line 62) and skips the guard; an exception raised by the inner
CNAME resolve that is not `NoAnswer`/`NXDOMAIN` escapes the inner `try`
and is handled by the outer `except` clauses, after which control reaches
the guard. -/
def get_dns_records (w : DnsWorld) (domain record_type : String) :
    List String × Option String :=
  match w.resolveMain with
  | Except.error e => guardFinal record_type ([], some (dnsExcMsg domain record_type e))
  | Except.ok Option.none =>
      if record_type = "NS" then
        match w.resolveCname with
        | Except.ok (some (t :: _)) =>
            ([], some (cnameFallbackMsg record_type (pyRstripDot t)))
        | Except.ok (some []) => ([], some (noRecordsMsg record_type))
        | Except.ok Option.none => ([], some (noRecordsMsg record_type))
        | Except.error DnsExc.noAnswer => ([], some (noRecordsMsg record_type))
        | Except.error DnsExc.nxdomain => ([], some (noRecordsMsg record_type))
        | Except.error e => guardFinal record_type ([], some (dnsExcMsg domain record_type e))
      else ([], some (noRecordsMsg record_type))
  | Except.ok (some l) => guardFinal record_type (l.map pyRstripDot, Option.none)

/-! ## Orchestrator (dnslookup.py `main`, lines 122-218)

`main`'s observable output is the four fields it prints.  Its three
network interactions (WHOIS on the input domain, the NS lookup, WHOIS on
the nameserver's owner domain) and the `tldextract`-based
`get_registrable_domain` call are oracles collected in `World`.
`get_registrable_domain` itself (lines 103-119) only wraps `tldextract`:
it returns `None` for empty input, the extractor's `registered_domain`
when that is truthy, and `None` otherwise — so its result is modelled
directly as `extract : Option String`. -/

/-- Oracle for `tldextract.extract(fqdn, include_psl_private_domains=True)`:
the extractor's `registered_domain` attribute, or a raised exception. -/
inductive TldExtract where
  | ok (registered_domain : String)
  | exc (e : String)

/-- `get_registrable_domain` (lines 103-119): `None` for empty input, the
extractor's `registered_domain` when truthy, otherwise `None` with a
warning. -/
def get_registrable_domain (call : TldExtract) (fqdn : String) : Option String :=
  if fqdn = "" then Option.none
  else
    match call with
    | TldExtract.ok rd => if rd ≠ "" then some rd else Option.none
    | TldExtract.exc _ => Option.none

/-- Python truthiness of `Optional[WhoisRecord]` (line 151 `if
domain_whois:`, line 202 `if ns_domain_whois:`): `None` and an empty
dict-like record are falsy. -/
def whoisTruthy : Option WhoisRecord → Bool
  | Option.none => false
  | some r => !(List.isEmpty r)

/-- Oracles for one run of `main` on a domain. -/
structure World where
  domainWhois : WhoisCall
  dns : DnsWorld
  extract : Option String
  nsWhois : WhoisCall

/-- The four output fields of `main`, plus the NS error message it
prints. -/
structure MainOutput where
  registrant : String
  registrar : String
  nameservers : List String
  nsError : Option String
  provider : String

/-- Lines 148-173: Registrant and Registrar from the primary WHOIS
record. -/
def registrantRegistrar (domain_whois : Option WhoisRecord) : String × String :=
  if whoisTruthy domain_whois then
    match domain_whois with
    | some r =>
        let registrant_name := get_primary_whois_value
          (pyOr (WhoisRecord.get r "name") (WhoisRecord.get r "registrant_name"))
        let registrant_org := get_primary_whois_value
          (pyOr (WhoisRecord.get r "org") (WhoisRecord.get r "registrant_organization"))
        let registrant :=
          if registrant_name ≠ "Not Found" then registrant_name
          else if registrant_org ≠ "Not Found" then registrant_org
          else "Not Found"
        let registrar0 := get_primary_whois_value (WhoisRecord.get r "registrar")
        let registrar :=
          if registrar0 = "Not Found" then
            let url := get_primary_whois_value (WhoisRecord.get r "registrar_url")
            if url ≠ "Not Found" then "URL: " ++ url else registrar0
          else registrar0
        (registrant, registrar)
    | Option.none => ("WHOIS Lookup Failed", "WHOIS Lookup Failed")
  else ("WHOIS Lookup Failed", "WHOIS Lookup Failed")

/-- Lines 181-189: the anchor nameserver.  `first_nameserver` stays `None`
when the error message is truthy or the list is empty. -/
def firstNameserver (nameservers : List String) (ns_error_msg : Option String) :
    Option String :=
  if optStrTruthy ns_error_msg then Option.none
  else
    match nameservers with
    | ns :: _ => some ns
    | [] => Option.none

/-- Lines 194-213: the Inferred DNS Hosting Provider field. -/
def providerOf (w : World) (first_nameserver : Option String) : String :=
  match first_nameserver with
  | some ns =>
      if ns ≠ "" then
        match w.extract with
        | some d =>
            if d ≠ "" then
              match (get_whois_info d w.nsWhois).1 with
              | some r =>
                  if whoisTruthy (some r) then
                    let info := get_primary_whois_value (WhoisRecord.get r "registrar")
                    if info = "Not Found" then
                      let org := get_primary_whois_value (WhoisRecord.get r "org")
                      if org ≠ "Not Found" then
                        "Owner Org: " ++ org ++ " (Registrar Not Found)"
                      else info
                    else info
                  else "WHOIS Lookup Failed for " ++ d
              | Option.none => "WHOIS Lookup Failed for " ++ d
            else "Could not determine owner domain from '" ++ ns ++ "'."
        | Option.none => "Could not determine owner domain from '" ++ ns ++ "'."
      else "Skipped (No nameserver found)."
  | Option.none => "Skipped (No nameserver found)."

/-- `main` (lines 122-218) as a function of the input domain and the
oracles. -/
def mainRun (w : World) (domain : String) : MainOutput :=
  let domain_to_check := pyStrip (pyLower domain)
  let domain_whois := (get_whois_info domain_to_check w.domainWhois).1
  let rr := registrantRegistrar domain_whois
  let res := get_dns_records w.dns domain_to_check "NS"
  let first_nameserver := firstNameserver res.1 res.2
  { registrant := rr.1
    registrar := rr.2
    nameservers := res.1
    nsError := res.2
    provider := providerOf w first_nameserver }

/-- Modelled from the spec: step 4 of the orchestrator, the Inferred DNS
Hosting Provider when an anchor nameserver `ns` exists, as the spec words
it ("registrar absent" read as: its primary value is the sentinel
"Not Found", which is the Field Normalizer's encoding of absence). -/
def inferredProviderSpec (ns : String) (owner : Option String)
    (ownerWhois : Option WhoisRecord) : String :=
  match owner with
  | Option.none => "Could not determine owner domain from '" ++ ns ++ "'."
  | some d =>
      match ownerWhois with
      | Option.none => "WHOIS Lookup Failed for " ++ d
      | some r =>
          let reg := get_primary_whois_value (WhoisRecord.get r "registrar")
          if reg ≠ "Not Found" then reg
          else
            let org := get_primary_whois_value (WhoisRecord.get r "org")
            if org ≠ "Not Found" then "Owner Org: " ++ org ++ " (Registrar Not Found)"
            else "Not Found"

/-! ## Helper lemmas -/

theorem append_ne_empty_left {a : String} (b : String) (h : a ≠ "") :
    a ++ b ≠ "" := by
  intro hc
  apply h
  apply String.ext
  have hd := congrArg String.data hc
  rw [String.data_append] at hd
  exact (List.append_eq_nil.mp hd).1

theorem dnsExcMsg_ne_empty (domain record_type : String) (e : DnsExc) :
    dnsExcMsg domain record_type e ≠ "" := by
  cases e with
  | nxdomain =>
      exact append_ne_empty_left _ (append_ne_empty_left _ (by decide))
  | noAnswer =>
      exact append_ne_empty_left _ (append_ne_empty_left _
        (append_ne_empty_left _ (append_ne_empty_left _ (by decide))))
  | noNameservers =>
      exact append_ne_empty_left _ (append_ne_empty_left _ (by decide))
  | timeout =>
      exact append_ne_empty_left _ (append_ne_empty_left _
        (append_ne_empty_left _ (append_ne_empty_left _ (by decide))))
  | other e =>
      exact append_ne_empty_left _ (append_ne_empty_left _
        (append_ne_empty_left _ (append_ne_empty_left _
          (append_ne_empty_left _ (by decide)))))

theorem noRecordsMsg_ne_empty (record_type : String) :
    noRecordsMsg record_type ≠ "" :=
  append_ne_empty_left _ (append_ne_empty_left _ (by decide))

theorem cnameFallbackMsg_ne_empty (record_type target : String) :
    cnameFallbackMsg record_type target ≠ "" :=
  append_ne_empty_left _ (append_ne_empty_left _ (append_ne_empty_left _ (by decide)))

theorem silentMsg_ne_empty (record_type : String) :
    ("No " ++ record_type ++ " records found (or query failed silently).") ≠ "" :=
  append_ne_empty_left _ (append_ne_empty_left _ (by decide))

theorem guardFinal_fst (record_type : String) (res : List String × Option String) :
    (guardFinal record_type res).1 = res.1 := by
  unfold guardFinal
  split <;> rfl

theorem guardFinal_of_truthy (record_type : String) {msg : String} (h : msg ≠ "") :
    guardFinal record_type ([], some msg) = ([], some msg) := by
  unfold guardFinal
  simp [optStrTruthy, h]

theorem guardFinal_of_none_empty (record_type : String) :
    guardFinal record_type ([], Option.none) =
      ([], some ("No " ++ record_type ++ " records found (or query failed silently).")) := by
  unfold guardFinal
  simp [optStrTruthy]

theorem guardFinal_of_nonempty (record_type : String) {recs : List String}
    (h : recs ≠ []) (err : Option String) :
    guardFinal record_type (recs, err) = (recs, err) := by
  unfold guardFinal
  have : recs.isEmpty = false := List.isEmpty_eq_false.mpr h
  simp [this]

-- Unfolding equations for `get_dns_records`, one per oracle shape.

theorem get_dns_records_eq_error (w : DnsWorld) (domain record_type : String)
    (e : DnsExc) (hm : w.resolveMain = Except.error e) :
    get_dns_records w domain record_type =
      guardFinal record_type ([], some (dnsExcMsg domain record_type e)) := by
  unfold get_dns_records
  rw [hm]

theorem get_dns_records_eq_some (w : DnsWorld) (domain record_type : String)
    (l : List String) (hm : w.resolveMain = Except.ok (some l)) :
    get_dns_records w domain record_type =
      guardFinal record_type (l.map pyRstripDot, Option.none) := by
  unfold get_dns_records
  rw [hm]

theorem get_dns_records_eq_none_notNS (w : DnsWorld) (domain record_type : String)
    (hm : w.resolveMain = Except.ok Option.none) (hns : record_type ≠ "NS") :
    get_dns_records w domain record_type = ([], some (noRecordsMsg record_type)) := by
  unfold get_dns_records
  rw [hm]
  exact if_neg hns

theorem get_dns_records_eq_none_NS (w : DnsWorld) (domain : String)
    (hm : w.resolveMain = Except.ok Option.none) :
    get_dns_records w domain "NS" =
      (match w.resolveCname with
        | Except.ok (some (t :: _)) =>
            ([], some (cnameFallbackMsg "NS" (pyRstripDot t)))
        | Except.ok (some []) => ([], some (noRecordsMsg "NS"))
        | Except.ok Option.none => ([], some (noRecordsMsg "NS"))
        | Except.error DnsExc.noAnswer => ([], some (noRecordsMsg "NS"))
        | Except.error DnsExc.nxdomain => ([], some (noRecordsMsg "NS"))
        | Except.error e => guardFinal "NS" ([], some (dnsExcMsg domain "NS" e))) := by
  unfold get_dns_records
  rw [hm]
  rfl

/-- Every branch of `get_dns_records` that returns an empty record list
also returns a non-empty error message. -/
theorem dns_empty_has_error (w : DnsWorld) (domain record_type : String)
    (h : (get_dns_records w domain record_type).1 = []) :
    ∃ m, (get_dns_records w domain record_type).2 = some m ∧ m ≠ "" := by
  cases hm : w.resolveMain with
  | error e =>
      rw [get_dns_records_eq_error w domain record_type e hm,
        guardFinal_of_truthy _ (dnsExcMsg_ne_empty domain record_type e)]
      exact ⟨_, rfl, dnsExcMsg_ne_empty domain record_type e⟩
  | ok rrset =>
      cases rrset with
      | none =>
          by_cases hns : record_type = "NS"
          · subst hns
            rw [get_dns_records_eq_none_NS w domain hm]
            cases hc : w.resolveCname with
            | ok ca =>
                cases ca with
                | none => exact ⟨_, rfl, noRecordsMsg_ne_empty _⟩
                | some l =>
                    cases l with
                    | nil => exact ⟨_, rfl, noRecordsMsg_ne_empty _⟩
                    | cons t rest => exact ⟨_, rfl, cnameFallbackMsg_ne_empty _ _⟩
            | error e =>
                cases e with
                | noAnswer => exact ⟨_, rfl, noRecordsMsg_ne_empty _⟩
                | nxdomain => exact ⟨_, rfl, noRecordsMsg_ne_empty _⟩
                | noNameservers =>
                    refine ⟨dnsExcMsg domain "NS" DnsExc.noNameservers, ?_,
                      dnsExcMsg_ne_empty domain "NS" _⟩
                    show (guardFinal "NS"
                      ([], some (dnsExcMsg domain "NS" DnsExc.noNameservers))).2 = _
                    rw [guardFinal_of_truthy _ (dnsExcMsg_ne_empty domain "NS" _)]
                | timeout =>
                    refine ⟨dnsExcMsg domain "NS" DnsExc.timeout, ?_,
                      dnsExcMsg_ne_empty domain "NS" _⟩
                    show (guardFinal "NS"
                      ([], some (dnsExcMsg domain "NS" DnsExc.timeout))).2 = _
                    rw [guardFinal_of_truthy _ (dnsExcMsg_ne_empty domain "NS" _)]
                | other msg =>
                    refine ⟨dnsExcMsg domain "NS" (DnsExc.other msg), ?_,
                      dnsExcMsg_ne_empty domain "NS" _⟩
                    show (guardFinal "NS"
                      ([], some (dnsExcMsg domain "NS" (DnsExc.other msg)))).2 = _
                    rw [guardFinal_of_truthy _ (dnsExcMsg_ne_empty domain "NS" _)]
          · rw [get_dns_records_eq_none_notNS w domain record_type hm hns]
            exact ⟨_, rfl, noRecordsMsg_ne_empty _⟩
      | some l =>
          rw [get_dns_records_eq_some w domain record_type l hm] at h ⊢
          cases hl : l.map pyRstripDot with
          | nil =>
              rw [guardFinal_of_none_empty]
              exact ⟨_, rfl, silentMsg_ne_empty record_type⟩
          | cons a t =>
              rw [hl, guardFinal_of_nonempty record_type (by simp) Option.none] at h
              simp at h

/-- A non-empty record list is only produced on the success path, where no
error message is set and the defensive guard leaves the pair alone. -/
theorem dns_nonempty_no_error (w : DnsWorld) (domain record_type : String)
    (h : (get_dns_records w domain record_type).1 ≠ []) :
    (get_dns_records w domain record_type).2 = Option.none := by
  cases hm : w.resolveMain with
  | error e =>
      rw [get_dns_records_eq_error w domain record_type e hm, guardFinal_fst] at h
      exact absurd rfl h
  | ok rrset =>
      cases rrset with
      | none =>
          by_cases hns : record_type = "NS"
          · subst hns
            rw [get_dns_records_eq_none_NS w domain hm] at h
            cases hc : w.resolveCname with
            | ok ca =>
                rw [hc] at h
                cases ca with
                | none => exact absurd rfl h
                | some l =>
                    cases l with
                    | nil => exact absurd rfl h
                    | cons t rest => exact absurd rfl h
            | error e =>
                rw [hc] at h
                cases e with
                | noAnswer => exact absurd rfl h
                | nxdomain => exact absurd rfl h
                | noNameservers => rw [guardFinal_fst] at h; exact absurd rfl h
                | timeout => rw [guardFinal_fst] at h; exact absurd rfl h
                | other msg => rw [guardFinal_fst] at h; exact absurd rfl h
          · rw [get_dns_records_eq_none_notNS w domain record_type hm hns] at h
            exact absurd rfl h
      | some l =>
          rw [get_dns_records_eq_some w domain record_type l hm] at h ⊢
          rw [guardFinal_fst] at h
          rw [guardFinal_of_nonempty record_type h Option.none]

-- Field-normalizer lemmas.

theorem filterMap_head_eq_first (l : List PyData) :
    (l.filterMap strEntryFilter).head? = firstStringEntry l := by
  induction l with
  | nil => rfl
  | cons a t ih =>
      cases a with
      | str s =>
          by_cases hs : pyStrip s = ""
          · simp [List.filterMap_cons, strEntryFilter, firstStringEntry, hs, ih]
          · simp [List.filterMap_cons, strEntryFilter, firstStringEntry, hs]
      | none => simpa [List.filterMap_cons, strEntryFilter, firstStringEntry] using ih
      | list l2 => simpa [List.filterMap_cons, strEntryFilter, firstStringEntry] using ih
      | other r => simpa [List.filterMap_cons, strEntryFilter, firstStringEntry] using ih

theorem gpwv_list_eq (l : List PyData) :
    get_primary_whois_value (PyData.list l) = (firstStringEntry l).getD "Not Found" := by
  show (match l.filterMap strEntryFilter with
        | x :: _ => x
        | [] => "Not Found") = _
  rw [← filterMap_head_eq_first]
  cases l.filterMap strEntryFilter <;> rfl

theorem firstStringEntry_strip_ne {l : List PyData} {s : String}
    (h : firstStringEntry l = some s) : pyStrip s ≠ "" := by
  induction l with
  | nil => simp [firstStringEntry] at h
  | cons a t ih =>
      cases a with
      | str s0 =>
          by_cases hs : pyStrip s0 = ""
          · simp only [firstStringEntry, hs] at h
            simp at h
            exact ih h
          · simp only [firstStringEntry] at h
            rw [if_pos hs] at h
            cases h
            exact hs
      | none => exact ih h
      | list l2 => exact ih h
      | other r => exact ih h

-- Trailing-dot lemmas.

/-- Does the string end in the root-label dot? -/
def endsInDot (s : String) : Bool :=
  s.data.getLast? = some '.'

theorem pyRstripDot_no_trailing (s : String) :
    (pyRstripDot s).data.getLast? ≠ some '.' := by
  show ((s.data.reverse.dropWhile (fun c => c = '.')).reverse).getLast? ≠ some '.'
  rw [List.getLast?_reverse]
  intro hc
  have hfalse := dropWhile_head_not (p := fun c => c = '.') _ _ hc
  simp at hfalse

theorem endsInDot_pyRstripDot (s : String) : endsInDot (pyRstripDot s) = false := by
  unfold endsInDot
  simp only [decide_eq_false_iff_not]
  exact pyRstripDot_no_trailing s

-- WHOIS result projection.

/-- The record component of a WHOIS call outcome: the first component of
`get_whois_info`, which does not depend on the domain string (that only
enters the warning text). -/
def whoisResultOf : WhoisCall → Option WhoisRecord
  | WhoisCall.ok r => some r
  | WhoisCall.exc _ => Option.none

theorem get_whois_info_fst (domain : String) (c : WhoisCall) :
    (get_whois_info domain c).1 = whoisResultOf c := by
  cases c with
  | ok r => rfl
  | exc e => cases e <;> rfl

/-- `get_registrable_domain` never returns `some ""`: the justification
for the extraction side condition used with the orchestrator claims. -/
theorem get_registrable_domain_ne_empty (call : TldExtract) (fqdn : String) :
    get_registrable_domain call fqdn = Option.none ∨
    ∃ d, get_registrable_domain call fqdn = some d ∧ d ≠ "" := by
  unfold get_registrable_domain
  by_cases hf : fqdn = ""
  · simp [hf]
  · cases call with
    | ok rd =>
        by_cases hrd : rd = ""
        · simp [hf, hrd]
        · right
          exact ⟨rd, by simp [hf, hrd], hrd⟩
    | exc e => simp [hf]

-- Anchor-nameserver lemmas.

theorem firstNameserver_nil (e : Option String) :
    firstNameserver [] e = Option.none := by
  unfold firstNameserver
  split <;> rfl

theorem firstNameserver_cons_none (ns : String) (rest : List String) :
    firstNameserver (ns :: rest) Option.none = some ns := rfl

-- Concrete oracle values used by the witnesses.

/-- NS query fails with NXDOMAIN. -/
def dnsWorldNx : DnsWorld :=
  { resolveMain := Except.error DnsExc.nxdomain
    resolveCname := Except.ok Option.none }

/-- NS query succeeds with two records (trailing root-label dots as the
resolver renders them). -/
def dnsWorldOk : DnsWorld :=
  { resolveMain := Except.ok (some ["ns1.example.com.", "ns2.example.com."])
    resolveCname := Except.ok Option.none }

/-- NS query has an empty answer but a CNAME exists. -/
def dnsWorldCname : DnsWorld :=
  { resolveMain := Except.ok Option.none
    resolveCname := Except.ok (some ["cdn.example.net."]) }

/-- A run where every lookup fails. -/
def worldAllFail : World :=
  { domainWhois := WhoisCall.exc WhoisExc.unknownTld
    dns := dnsWorldNx
    extract := Option.none
    nsWhois := WhoisCall.exc WhoisExc.unknownTld }

/-- A fully successful run. -/
def worldOk : World :=
  { domainWhois := WhoisCall.ok
      [("name", PyData.str "Jane Doe"), ("registrar", PyData.str "Acme Registrar")]
    dns := dnsWorldOk
    extract := some "example.com"
    nsWhois := WhoisCall.ok [("registrar", PyData.str "CloudDNS Inc")] }

/-! ## Claims -/

/-- C1 counterexample: the claim says a list input yields the first
non-empty, whitespace-trimmed string among the string entries, so on
`["  Acme  "]` it predicts `"Acme"`; the code returns the entry untrimmed
(`filtered_list[0]`), i.e. `"  Acme  "`. -/
theorem C1_normalizer_cex :
    get_primary_whois_value (PyData.list [PyData.str "  Acme  "]) = "  Acme  " ∧
    "  Acme  " ≠ "Acme" := by
  constructor
  · rfl
  · decide

/-- C1 (amended): `get_primary_whois_value` returns "Not Found" for an
absent input; for a bare string its trimmed form if non-empty else
"Not Found"; and for a list the first entry that is an actual string
whose whitespace-trimmed form is non-empty, returned untrimmed, else
"Not Found".  In particular the three quoted examples hold. -/
theorem C1_normalizer_amended :
    get_primary_whois_value PyData.none = "Not Found" ∧
    (∀ s : String, get_primary_whois_value (PyData.str s) =
        if pyStrip s = "" then "Not Found" else pyStrip s) ∧
    (∀ l : List PyData, get_primary_whois_value (PyData.list l) =
        (firstStringEntry l).getD "Not Found") ∧
    get_primary_whois_value
      (PyData.list [PyData.str "", PyData.str "  ", PyData.str "Acme Inc."]) = "Acme Inc." ∧
    get_primary_whois_value (PyData.str "  Acme  ") = "Acme" := by
  refine ⟨rfl, ?_, gpwv_list_eq, by decide, by decide⟩
  intro s
  by_cases hs : pyStrip s = ""
  · simp [get_primary_whois_value, hs]
  · simp [get_primary_whois_value, hs]

/-- C2: every failure of the underlying WHOIS query (each `except` clause
of lines 17-31, including the catch-all) results in `None` plus a printed
warning, and never an exception: `get_whois_info` is a total function of
the call outcome. -/
theorem C2_whois_absorbs_failures (domain : String) :
    ∀ e : WhoisExc, (get_whois_info domain (WhoisCall.exc e)).1 = Option.none ∧
      ∃ msg, (get_whois_info domain (WhoisCall.exc e)).2 = some msg := by
  intro e
  cases e <;> exact ⟨rfl, _, rfl⟩

/-- C3: whenever `get_dns_records` returns an empty record list, the error
component is a non-empty string (the line 82-83 guard backstops the one
path that could otherwise fall through silently). -/
theorem C3_empty_list_has_error (w : DnsWorld) (domain record_type : String)
    (h : (get_dns_records w domain record_type).1 = []) :
    ∃ m, (get_dns_records w domain record_type).2 = some m ∧ m ≠ "" :=
  dns_empty_has_error w domain record_type h

theorem C3_empty_list_has_error_witness :
    ∃ m, (get_dns_records dnsWorldNx "example.com" "NS").2 = some m ∧ m ≠ "" :=
  C3_empty_list_has_error dnsWorldNx "example.com" "NS" rfl

/-- C4: with an empty NS answer, a CNAME of target `t` makes the error
message the CNAME-fallback text carrying the (dot-stripped) target;
with no CNAME (a `NoAnswer`/`NXDOMAIN` from the probe, or an empty CNAME
result set) the plain no-records message is reported.  In both cases the
record list is empty. -/
theorem C4_ns_cname_fallback (w : DnsWorld) (domain : String)
    (hm : w.resolveMain = Except.ok Option.none) :
    (∀ t rest, w.resolveCname = Except.ok (some (t :: rest)) →
        get_dns_records w domain "NS" =
          ([], some ("No direct NS records found, but found CNAME: " ++ pyRstripDot t))) ∧
    (∀ e, (e = DnsExc.noAnswer ∨ e = DnsExc.nxdomain) →
        w.resolveCname = Except.error e →
        get_dns_records w domain "NS" = ([], some "No NS records found.")) ∧
    ((w.resolveCname = Except.ok Option.none ∨ w.resolveCname = Except.ok (some [])) →
        get_dns_records w domain "NS" = ([], some "No NS records found.")) := by
  refine ⟨?_, ?_, ?_⟩
  · intro t rest hc
    rw [get_dns_records_eq_none_NS w domain hm, hc]
    exact rfl
  · intro e he hc
    rcases he with he | he <;>
      · subst he
        rw [get_dns_records_eq_none_NS w domain hm, hc]
        exact rfl
  · intro hc
    rcases hc with hc | hc <;>
      · rw [get_dns_records_eq_none_NS w domain hm, hc]
        exact rfl

theorem C4_ns_cname_fallback_witness :
    get_dns_records dnsWorldCname "example.com" "NS" =
      ([], some ("No direct NS records found, but found CNAME: " ++
        pyRstripDot "cdn.example.net.")) :=
  (C4_ns_cname_fallback dnsWorldCname "example.com" rfl).1 "cdn.example.net." [] rfl

/-- C5: every record string returned by a successful `get_dns_records`
call has had its trailing root-label dots stripped (line 66), so none of
them ends in `'.'`. -/
theorem C5_no_trailing_dot (w : DnsWorld) (domain record_type r : String)
    (h : r ∈ (get_dns_records w domain record_type).1) :
    endsInDot r = false := by
  cases hm : w.resolveMain with
  | error e =>
      rw [get_dns_records_eq_error w domain record_type e hm, guardFinal_fst] at h
      cases h
  | ok rrset =>
      cases rrset with
      | none =>
          by_cases hns : record_type = "NS"
          · subst hns
            rw [get_dns_records_eq_none_NS w domain hm] at h
            cases hc : w.resolveCname with
            | ok ca =>
                rw [hc] at h
                cases ca with
                | none => cases h
                | some l =>
                    cases l with
                    | nil => cases h
                    | cons t rest => cases h
            | error e =>
                rw [hc] at h
                cases e with
                | noAnswer => cases h
                | nxdomain => cases h
                | noNameservers => rw [guardFinal_fst] at h; cases h
                | timeout => rw [guardFinal_fst] at h; cases h
                | other msg => rw [guardFinal_fst] at h; cases h
          · rw [get_dns_records_eq_none_notNS w domain record_type hm hns] at h
            cases h
      | some l =>
          rw [get_dns_records_eq_some w domain record_type l hm, guardFinal_fst] at h
          obtain ⟨x, _, hx⟩ := List.mem_map.mp h
          rw [← hx]
          exact endsInDot_pyRstripDot x

theorem C5_no_trailing_dot_witness :
    "ns1.example.com" ∈ (get_dns_records dnsWorldOk "example.com" "NS").1 ∧
    endsInDot "ns1.example.com" = false :=
  ⟨by decide, C5_no_trailing_dot dnsWorldOk "example.com" "NS" "ns1.example.com" (by decide)⟩

/-- C9: for absent, bare-string and list inputs the normalizer never
returns the empty string — the result is the sentinel "Not Found" or
contains a non-whitespace character. -/
theorem C9_never_empty (d : PyData) (h : d.basicShape = true) :
    get_primary_whois_value d ≠ "" ∧
    (get_primary_whois_value d = "Not Found" ∨
      (get_primary_whois_value d).data.any (fun c => !c.isWhitespace) = true) := by
  cases d with
  | none => exact ⟨by decide, Or.inl rfl⟩
  | other r => cases h
  | str s =>
      by_cases hs : pyStrip s = ""
      · have hv : get_primary_whois_value (PyData.str s) = "Not Found" := by
          simp [get_primary_whois_value, hs]
        rw [hv]
        exact ⟨by decide, Or.inl rfl⟩
      · have hv : get_primary_whois_value (PyData.str s) = pyStrip s := by
          simp [get_primary_whois_value, hs]
        rw [hv]
        refine ⟨hs, Or.inr ?_⟩
        obtain ⟨c, hc, hcw⟩ := trimChars_has_non_ws (pyStrip_ne_empty_iff.mp hs)
        exact List.any_eq_true.mpr ⟨c, hc, by simp [hcw]⟩
  | list l =>
      rw [gpwv_list_eq l]
      cases hf : firstStringEntry l with
      | none => exact ⟨by decide, Or.inl rfl⟩
      | some s =>
          have hs : pyStrip s ≠ "" := firstStringEntry_strip_ne hf
          refine ⟨?_, Or.inr ?_⟩
          · intro hc
            apply hs
            have : s = "" := hc
            rw [this]
            rfl
          · obtain ⟨c, hc, hcw⟩ := trimChars_ne_nil_exists (pyStrip_ne_empty_iff.mp hs)
            exact List.any_eq_true.mpr ⟨c, hc, by simp [hcw]⟩

theorem C9_never_empty_witness :
    PyData.basicShape (PyData.str "  Acme  ") = true ∧
    (get_primary_whois_value (PyData.str "  Acme  ") ≠ "" ∧
      (get_primary_whois_value (PyData.str "  Acme  ") = "Not Found" ∨
        (get_primary_whois_value (PyData.str "  Acme  ")).data.any
          (fun c => !c.isWhitespace) = true)) :=
  ⟨rfl, C9_never_empty (PyData.str "  Acme  ") rfl⟩

/-- C10: a non-empty record list is returned only with an absent error
component — the success path never sets an error and the defensive guard
only fires on an empty list. -/
theorem C10_nonempty_list_no_error (w : DnsWorld) (domain record_type : String)
    (h : (get_dns_records w domain record_type).1 ≠ []) :
    (get_dns_records w domain record_type).2 = Option.none :=
  dns_nonempty_no_error w domain record_type h

theorem C10_nonempty_list_no_error_witness :
    (get_dns_records dnsWorldOk "example.com" "NS").2 = Option.none :=
  C10_nonempty_list_no_error dnsWorldOk "example.com" "NS" (by decide)

/-- C6: when the WHOIS lookup of the primary domain returns absence, both
Registrant and Registrar are the sentinel "WHOIS Lookup Failed"
(lines 171-173). -/
theorem C6_whois_failed_sentinels (w : World) (domain : String)
    (h : (get_whois_info (pyStrip (pyLower domain)) w.domainWhois).1 = Option.none) :
    (mainRun w domain).registrant = "WHOIS Lookup Failed" ∧
    (mainRun w domain).registrar = "WHOIS Lookup Failed" := by
  have hrr : registrantRegistrar
      (get_whois_info (pyStrip (pyLower domain)) w.domainWhois).1 =
      ("WHOIS Lookup Failed", "WHOIS Lookup Failed") := by
    rw [h]
    rfl
  constructor
  · show (registrantRegistrar
      (get_whois_info (pyStrip (pyLower domain)) w.domainWhois).1).1 = _
    rw [hrr]
  · show (registrantRegistrar
      (get_whois_info (pyStrip (pyLower domain)) w.domainWhois).1).2 = _
    rw [hrr]

theorem C6_whois_failed_sentinels_witness :
    (mainRun worldAllFail "nonexistent.example").registrant = "WHOIS Lookup Failed" ∧
    (mainRun worldAllFail "nonexistent.example").registrar = "WHOIS Lookup Failed" :=
  C6_whois_failed_sentinels worldAllFail "nonexistent.example" rfl

/-- C8: when no anchor nameserver exists — the NS lookup reported an
error, or its record list is empty — the Inferred DNS Hosting Provider is
exactly "Skipped (No nameserver found)." (lines 212-213). -/
theorem C8_skipped_no_nameserver (w : World) (domain : String)
    (h : (get_dns_records w.dns (pyStrip (pyLower domain)) "NS").2 ≠ Option.none ∨
         (get_dns_records w.dns (pyStrip (pyLower domain)) "NS").1 = []) :
    (mainRun w domain).provider = "Skipped (No nameserver found)." := by
  have hempty : (get_dns_records w.dns (pyStrip (pyLower domain)) "NS").1 = [] := by
    rcases h with h | h
    · by_contra hne
      exact h (dns_nonempty_no_error _ _ _ hne)
    · exact h
  show providerOf w
    (firstNameserver (get_dns_records w.dns (pyStrip (pyLower domain)) "NS").1
      (get_dns_records w.dns (pyStrip (pyLower domain)) "NS").2) = _
  rw [hempty, firstNameserver_nil]
  rfl

theorem C8_skipped_no_nameserver_witness :
    (mainRun worldAllFail "nonexistent.example").provider =
      "Skipped (No nameserver found)." :=
  C8_skipped_no_nameserver worldAllFail "nonexistent.example" (Or.inr rfl)

/-- C7: with an anchor nameserver `ns` (first record of a successful,
non-empty NS lookup, a non-empty host name), the Inferred DNS Hosting
Provider equals the cascade the spec describes (`inferredProviderSpec`):
extraction failure message, WHOIS-failure message for the owner domain,
or the primary registrar value with the Owner-Org / "Not Found"
fallbacks.  The two side conditions state what the other components
guarantee: `get_registrable_domain` never returns an empty string, and a
WHOIS success is a non-empty record ("fails" in the claim is the code's
own notion of a falsy lookup result). -/
theorem C7_provider_inference (w : World) (domain ns : String) (rest : List String)
    (hns : (get_dns_records w.dns (pyStrip (pyLower domain)) "NS").1 = ns :: rest)
    (hne : ns ≠ "")
    (hex : w.extract = Option.none ∨ ∃ d, w.extract = some d ∧ d ≠ "")
    (hwh : whoisResultOf w.nsWhois = Option.none ∨
        ∃ r, whoisResultOf w.nsWhois = some r ∧ r ≠ []) :
    (mainRun w domain).provider =
      inferredProviderSpec ns w.extract (whoisResultOf w.nsWhois) := by
  have herr : (get_dns_records w.dns (pyStrip (pyLower domain)) "NS").2 = Option.none :=
    dns_nonempty_no_error _ _ _ (by rw [hns]; exact List.cons_ne_nil ns rest)
  show providerOf w
    (firstNameserver (get_dns_records w.dns (pyStrip (pyLower domain)) "NS").1
      (get_dns_records w.dns (pyStrip (pyLower domain)) "NS").2) = _
  rw [hns, herr, firstNameserver_cons_none]
  rcases hex with hx | ⟨d, hx, hd⟩
  · simp [providerOf, inferredProviderSpec, hx, hne]
  · rcases hwh with hw2 | ⟨r, hw2, hr⟩
    · simp [providerOf, inferredProviderSpec, hx, hd, hne, get_whois_info_fst, hw2]
    · have htr : whoisTruthy (some r) = true := by
        simp [whoisTruthy, List.isEmpty_eq_false.mpr hr]
      simp only [providerOf, inferredProviderSpec, hx, hne, hd, if_true, if_pos,
        get_whois_info_fst, hw2, htr]
      by_cases hreg :
          get_primary_whois_value (WhoisRecord.get r "registrar") = "Not Found" <;>
        simp [hreg, hd, hne]

theorem C7_provider_inference_witness :
    (mainRun worldOk "Example.COM").provider =
      inferredProviderSpec "ns1.example.com" (some "example.com")
        (whoisResultOf worldOk.nsWhois) :=
  C7_provider_inference worldOk "Example.COM" "ns1.example.com" ["ns2.example.com"]
    (by decide) (by decide)
    (Or.inr ⟨"example.com", rfl, by decide⟩)
    (Or.inr ⟨[("registrar", PyData.str "CloudDNS Inc")], rfl,
      List.cons_ne_nil _ _⟩)

end DNSLookup
